import Mathlib

/-!
Shallow embedding of `src/microcloud/service/lxd.go` (package `service`).

External collaborators (the LXD client RPCs, the token decoder, certificate
loading, trust setup, yaml marshalling, and the `lxd init --preseed`
subprocess) are modelled as oracles collected in an `Env` record; each
method of `LXDService` is a Lean function from the environment and the
receiver to its Go result paired with the ordered trace of external calls
it performed, so that temporal and call-count properties are statable.
-/

namespace Service

/-- Go `error` values as they appear in this file: a plain message
(`fmt.Errorf` without `%w`), a status error carried by the client
(e.g. HTTP 409 Conflict), or a wrapped error (`fmt.Errorf("...%w", err)`),
whose `pre` field is exactly the format text preceding `%w`. -/
inductive GoError where
  | msg (s : String)
  | status (code : Nat) (s : String)
  | wrap (pre : String) (e : GoError)
deriving DecidableEq

/-- Whether an error is a stage-wrapped error (`fmt.Errorf` with `%w`). -/
def GoError.isWrap : GoError → Bool
  | .wrap _ _ => true
  | _ => false

/-- `api.Cluster`: the fields read or written by this file. -/
structure Cluster where
  serverName : String
  enabled : Bool
deriving DecidableEq

/-- `api.ClusterPut`: the fields used by this file. `Bootstrap` builds one
with only `serverName`/`enabled` set (other fields zero-valued); `Join`
receives one from `configFromToken`. -/
structure ClusterPut where
  serverName : String
  enabled : Bool
  clusterAddress : String
  clusterCertificate : String
deriving DecidableEq

/-- `api.ClusterMembersPost`. -/
structure ClusterMembersPost where
  serverName : String
deriving DecidableEq

/-- An LXD client operation handle; `apiOp` is the opaque `api.Operation`
payload that `op.Get()` returns. -/
structure Operation where
  apiOp : String
deriving DecidableEq

/-- `api.ServerPut`: its `Config` map, as an association list. -/
structure ServerPut where
  config : List (String × String)
deriving DecidableEq

/-- `api.StoragePoolsPost`. -/
structure StoragePoolsPost where
  name : String
  driver : String
deriving DecidableEq

/-- `api.ProfilesPost`: name and the device map (device name to its
key/value config). -/
structure ProfilesPost where
  name : String
  devices : List (String × List (String × String))
deriving DecidableEq

/-- `api.InitLocalPreseed`. -/
structure InitLocalPreseed where
  serverPut : ServerPut
  storagePools : List StoragePoolsPost
  profiles : List ProfilesPost
deriving DecidableEq

/-- `api.InitPreseed`. -/
structure InitPreseed where
  node : InitLocalPreseed
deriving DecidableEq

/-- `LXDService`: the receiver struct. The `client` field's behaviour
lives in `Env`; the data fields are kept here. -/
structure LXDService where
  dir : String
  name : String
  address : String
  port : Nat
deriving DecidableEq

/-- Modelled from the spec: the package-level fixed LXD port constant
(`LXDPort`), defined in a sibling file of the `service` package that is
not part of the given sources; the spec's bootstrap scenario uses port
8443. -/
def LXDPort : Nat := 8443

/-- `NewLXDService`: connects to the local LXD unix socket (modelled by
the `connect` oracle result) and on success builds the service with the
given name, address and directory, and the fixed `LXDPort`. -/
def NewLXDService (connect : Except GoError Unit) (name : String)
    (addr : String) (dir : String) : Except GoError LXDService :=
  match connect with
  | .error e => .error (.wrap "Failed to connect to local LXD: " e)
  | .ok _ => .ok { dir := dir, name := name, address := addr, port := LXDPort }

/-- `Name()` accessor. -/
def LXDService.Name (s : LXDService) : String := s.name

/-- `Address()` accessor. -/
def LXDService.Address (s : LXDService) : String := s.address

/-- `Port()` accessor. -/
def LXDService.Port (s : LXDService) : Nat := s.port

/-- The observable external calls a method can perform, in order. -/
inductive Call where
  | localInit (preseed : InitPreseed)
  | getCluster
  | updateCluster (cfg : ClusterPut) (etag : String)
  | opWait (op : Operation)
  | configFromToken (token : String)
  | loadServerCert (dir : String)
  | setupTrust (cert sname caddr ccert secret : String)
  | createClusterMember (post : ClusterMembersPost)
  | opGet (op : Operation)
  | toClusterJoinToken (payload : String)
deriving DecidableEq

/-- Whether a call is an `op.Wait()`. -/
def Call.isOpWait : Call → Bool
  | .opWait _ => true
  | _ => false

/-- Whether a call is a membership-mutating `UpdateCluster`. -/
def Call.isUpdateCluster : Call → Bool
  | .updateCluster _ _ => true
  | _ => false

/-- The environment of external collaborators: each field is the oracle
result of the corresponding external call made by `lxd.go`. -/
structure Env where
  canonicalNetworkAddress : String → Nat → String
  yamlMarshal : InitPreseed → Except GoError String
  bufferWrite : String → Except GoError Unit
  runPreseed : String → Except GoError Unit
  getCluster : Except GoError (Cluster × String)
  updateCluster : ClusterPut → String → Except GoError Operation
  opWait : Operation → Except GoError Unit
  configFromToken : String → Except GoError ClusterPut
  loadServerCert : String → Except GoError String
  setupTrust : String → String → String → String → String → Except GoError Unit
  createClusterMember : ClusterMembersPost → Except GoError Operation
  toClusterJoinToken : String → Except GoError String

/-- The `initData` preseed that `Bootstrap` builds before marshalling:
both https addresses set to the canonical address, one `local`/`dir`
storage pool, one `default` profile with a `root` disk device at `/`. -/
def bootstrapPreseed (canon : String → Nat → String) (s : LXDService) :
    InitPreseed :=
  let addr := canon s.address s.port
  { node :=
    { serverPut :=
        { config := [("core.https_address", addr), ("cluster.https_address", addr)] }
      storagePools := [{ name := "local", driver := "dir" }]
      profiles := [{ name := "default"
                     devices := [("root", [("path", "/"), ("pool", "local"), ("type", "disk")])] }] } }

/-- The distinct unwrapped error `Bootstrap` returns when the node is
already clustered. -/
def alreadyClusteredErr : GoError := .msg "This LXD server is already clustered"

/-- The `ClusterPut` that `Bootstrap` sends to `UpdateCluster`. -/
def bootstrapClusterPut (s : LXDService) : ClusterPut :=
  { serverName := s.name, enabled := true, clusterAddress := "", clusterCertificate := "" }

/-- `Bootstrap()`: build the preseed, marshal it, write it to the stdin
buffer, run `lxd init --preseed`, fetch the cluster state, fail if already
clustered, else enable clustering via `UpdateCluster` with the fetched
etag and await the operation. Returns the Go result with the trace of
external calls. -/
def Bootstrap (env : Env) (s : LXDService) : Except GoError Unit × List Call :=
  let initData := bootstrapPreseed env.canonicalNetworkAddress s
  match env.yamlMarshal initData with
  | .error e => (.error (.wrap "Failed to parse preseed configuration as yaml: " e), [])
  | .ok data =>
    match env.bufferWrite data with
    | .error e => (.error (.wrap "Failed to write preseed configuration: " e), [])
    | .ok _ =>
      match env.runPreseed data with
      | .error e => (.error (.wrap "Failed to initialize LXD: " e), [.localInit initData])
      | .ok _ =>
        match env.getCluster with
        | .error e =>
            (.error (.wrap "Failed to retrieve current cluster config: " e),
             [.localInit initData, .getCluster])
        | .ok (currentCluster, etag) =>
            if currentCluster.enabled then
              (.error alreadyClusteredErr, [.localInit initData, .getCluster])
            else
              match env.updateCluster (bootstrapClusterPut s) etag with
              | .error e =>
                  (.error (.wrap "Failed to enable clustering on local LXD: " e),
                   [.localInit initData, .getCluster, .updateCluster (bootstrapClusterPut s) etag])
              | .ok op =>
                  match env.opWait op with
                  | .error e =>
                      (.error (.wrap "Failed to configure cluster :" e),
                       [.localInit initData, .getCluster,
                        .updateCluster (bootstrapClusterPut s) etag, .opWait op])
                  | .ok _ =>
                      (.ok (),
                       [.localInit initData, .getCluster,
                        .updateCluster (bootstrapClusterPut s) etag, .opWait op])

/-- `Join(token)`: decode the token (error returned unwrapped), load the
local server certificate (error returned unwrapped), set up trust with
the cluster, then call `UpdateCluster` with the decoded config and an
empty etag and await the operation. -/
def Join (env : Env) (s : LXDService) (token : String) :
    Except GoError Unit × List Call :=
  match env.configFromToken token with
  | .error e => (.error e, [.configFromToken token])
  | .ok config =>
    match env.loadServerCert s.dir with
    | .error e => (.error e, [.configFromToken token, .loadServerCert s.dir])
    | .ok serverCert =>
      let tr := [Call.configFromToken token, Call.loadServerCert s.dir,
                 Call.setupTrust serverCert config.serverName config.clusterAddress
                   config.clusterCertificate token]
      match env.setupTrust serverCert config.serverName config.clusterAddress
          config.clusterCertificate token with
      | .error e =>
          (.error (.wrap "Failed to setup trust relationship with cluster: " e), tr)
      | .ok _ =>
          match env.updateCluster config "" with
          | .error e =>
              (.error (.wrap "Failed to join cluster: " e), tr ++ [.updateCluster config ""])
          | .ok op =>
              match env.opWait op with
              | .error e =>
                  (.error (.wrap "Failed to join cluster: " e),
                   tr ++ [.updateCluster config "", .opWait op])
              | .ok _ => (.ok (), tr ++ [.updateCluster config "", .opWait op])

/-- `IssueToken(peer)`: call `CreateClusterMember` (error returned
unwrapped), then read the operation's current payload via `op.Get()` —
without any `op.Wait()` — and convert it to a join token string. -/
def IssueToken (env : Env) (peer : String) : Except GoError String × List Call :=
  let post : ClusterMembersPost := { serverName := peer }
  match env.createClusterMember post with
  | .error e => (.error e, [.createClusterMember post])
  | .ok op =>
    match env.toClusterJoinToken op.apiOp with
    | .error e =>
        (.error (.wrap "Failed converting token operation to join token: " e),
         [.createClusterMember post, .opGet op, .toClusterJoinToken op.apiOp])
    | .ok jt =>
        (.ok jt, [.createClusterMember post, .opGet op, .toClusterJoinToken op.apiOp])

/-- A concrete operation handle for witness environments. -/
def opA : Operation := { apiOp := "op-payload" }

/-- A concrete decoded token config for witness environments. -/
def cfgTok : ClusterPut :=
  { serverName := "node1", enabled := true
    clusterAddress := "10.0.0.1:8443", clusterCertificate := "CERT" }

/-- A concrete service value for witness environments. -/
def svc1 : LXDService :=
  { dir := "/var/snap/lxd/common/lxd", name := "node1", address := "10.0.0.5", port := 8443 }

/-- An environment in which every external call succeeds. -/
def envOk : Env :=
  { canonicalNetworkAddress := fun a p => a ++ ":" ++ toString p
    yamlMarshal := fun _ => .ok "yaml"
    bufferWrite := fun _ => .ok ()
    runPreseed := fun _ => .ok ()
    getCluster := .ok ({ serverName := "", enabled := false }, "etag1")
    updateCluster := fun _ _ => .ok opA
    opWait := fun _ => .ok ()
    configFromToken := fun _ => .ok cfgTok
    loadServerCert := fun _ => .ok "LOCALCERT"
    setupTrust := fun _ _ _ _ _ => .ok ()
    createClusterMember := fun _ => .ok opA
    toClusterJoinToken := fun _ => .ok "tok" }

/-- Like `envOk` but the node is already clustered. -/
def envAlready : Env :=
  { envOk with getCluster := .ok ({ serverName := "", enabled := true }, "etag1") }

/-- Like `envOk` but loading the local server certificate fails. -/
def envCertFail : Env :=
  { envOk with loadServerCert := fun _ => .error (.msg "permission denied") }

/-- Like `envOk` but token decoding fails. -/
def envDecodeFail : Env :=
  { envOk with configFromToken := fun _ => .error (.msg "malformed token") }

/-- Like `envOk` but the trust handshake is rejected. -/
def envTrustFail : Env :=
  { envOk with setupTrust := fun _ _ _ _ _ => .error (.msg "trust rejected") }

/-- Like `envOk` but `CreateClusterMember` fails with an HTTP 409 Conflict. -/
def envConflict : Env :=
  { envOk with createClusterMember := fun _ => .error (.status 409 "cluster member already exists") }

/-- Helper: exhaustive enumeration of `Join`'s possible results and traces,
one disjunct per failure point of the source. -/
theorem Join_cases (env : Env) (s : LXDService) (token : String) :
    (∃ e, env.configFromToken token = .error e ∧
      Join env s token = (.error e, [.configFromToken token])) ∨
    (∃ cfg e, env.configFromToken token = .ok cfg ∧ env.loadServerCert s.dir = .error e ∧
      Join env s token = (.error e, [.configFromToken token, .loadServerCert s.dir])) ∨
    (∃ cfg cert e, env.configFromToken token = .ok cfg ∧ env.loadServerCert s.dir = .ok cert ∧
      env.setupTrust cert cfg.serverName cfg.clusterAddress cfg.clusterCertificate token
        = .error e ∧
      Join env s token = (.error (.wrap "Failed to setup trust relationship with cluster: " e),
        [.configFromToken token, .loadServerCert s.dir,
         .setupTrust cert cfg.serverName cfg.clusterAddress cfg.clusterCertificate token])) ∨
    (∃ cfg cert, env.configFromToken token = .ok cfg ∧ env.loadServerCert s.dir = .ok cert ∧
      env.setupTrust cert cfg.serverName cfg.clusterAddress cfg.clusterCertificate token
        = .ok () ∧
      ((∃ e, env.updateCluster cfg "" = .error e ∧
         Join env s token = (.error (.wrap "Failed to join cluster: " e),
           [.configFromToken token, .loadServerCert s.dir,
            .setupTrust cert cfg.serverName cfg.clusterAddress cfg.clusterCertificate token,
            .updateCluster cfg ""])) ∨
       (∃ op, env.updateCluster cfg "" = .ok op ∧
         (Join env s token).2 =
           [.configFromToken token, .loadServerCert s.dir,
            .setupTrust cert cfg.serverName cfg.clusterAddress cfg.clusterCertificate token,
            .updateCluster cfg "", .opWait op] ∧
         ((∃ e, env.opWait op = .error e ∧
            (Join env s token).1 = .error (.wrap "Failed to join cluster: " e)) ∨
          (Join env s token).1 = .ok ())))) := by
  cases h1 : env.configFromToken token with
  | error e => exact Or.inl ⟨e, rfl, by simp [Join, h1]⟩
  | ok cfg =>
    cases h2 : env.loadServerCert s.dir with
    | error e => exact Or.inr (Or.inl ⟨cfg, e, rfl, rfl, by simp [Join, h1, h2]⟩)
    | ok cert =>
      cases h3 : env.setupTrust cert cfg.serverName cfg.clusterAddress
          cfg.clusterCertificate token with
      | error e =>
          exact Or.inr (Or.inr (Or.inl ⟨cfg, cert, e, rfl, rfl, h3, by simp [Join, h1, h2, h3]⟩))
      | ok u =>
        refine Or.inr (Or.inr (Or.inr ⟨cfg, cert, rfl, rfl, by cases u; exact h3, ?_⟩))
        cases h4 : env.updateCluster cfg "" with
        | error e => exact Or.inl ⟨e, rfl, by simp [Join, h1, h2, h3, h4]⟩
        | ok op =>
          cases h5 : env.opWait op with
          | error e =>
              exact Or.inr ⟨op, rfl, by simp [Join, h1, h2, h3, h4, h5],
                Or.inl ⟨e, h5, by simp [Join, h1, h2, h3, h4, h5]⟩⟩
          | ok v =>
              exact Or.inr ⟨op, rfl, by simp [Join, h1, h2, h3, h4, h5],
                Or.inr (by simp [Join, h1, h2, h3, h4, h5])⟩

/-- Helper: exhaustive enumeration of `Bootstrap`'s possible results and
traces, one disjunct per failure point of the source. -/
theorem Bootstrap_cases (env : Env) (s : LXDService) :
    (∃ e, env.yamlMarshal (bootstrapPreseed env.canonicalNetworkAddress s) = .error e ∧
      Bootstrap env s =
        (.error (.wrap "Failed to parse preseed configuration as yaml: " e), [])) ∨
    (∃ data e, env.yamlMarshal (bootstrapPreseed env.canonicalNetworkAddress s) = .ok data ∧
      env.bufferWrite data = .error e ∧
      Bootstrap env s = (.error (.wrap "Failed to write preseed configuration: " e), [])) ∨
    (∃ data e, env.yamlMarshal (bootstrapPreseed env.canonicalNetworkAddress s) = .ok data ∧
      env.bufferWrite data = .ok () ∧ env.runPreseed data = .error e ∧
      Bootstrap env s = (.error (.wrap "Failed to initialize LXD: " e),
        [.localInit (bootstrapPreseed env.canonicalNetworkAddress s)])) ∨
    (∃ data e, env.yamlMarshal (bootstrapPreseed env.canonicalNetworkAddress s) = .ok data ∧
      env.bufferWrite data = .ok () ∧ env.runPreseed data = .ok () ∧
      env.getCluster = .error e ∧
      Bootstrap env s = (.error (.wrap "Failed to retrieve current cluster config: " e),
        [.localInit (bootstrapPreseed env.canonicalNetworkAddress s), .getCluster])) ∨
    (∃ data c etag,
      env.yamlMarshal (bootstrapPreseed env.canonicalNetworkAddress s) = .ok data ∧
      env.bufferWrite data = .ok () ∧ env.runPreseed data = .ok () ∧
      env.getCluster = .ok (c, etag) ∧ c.enabled = true ∧
      Bootstrap env s = (.error alreadyClusteredErr,
        [.localInit (bootstrapPreseed env.canonicalNetworkAddress s), .getCluster])) ∨
    (∃ data c etag e,
      env.yamlMarshal (bootstrapPreseed env.canonicalNetworkAddress s) = .ok data ∧
      env.bufferWrite data = .ok () ∧ env.runPreseed data = .ok () ∧
      env.getCluster = .ok (c, etag) ∧ c.enabled = false ∧
      env.updateCluster (bootstrapClusterPut s) etag = .error e ∧
      Bootstrap env s = (.error (.wrap "Failed to enable clustering on local LXD: " e),
        [.localInit (bootstrapPreseed env.canonicalNetworkAddress s), .getCluster,
         .updateCluster (bootstrapClusterPut s) etag])) ∨
    (∃ data c etag op,
      env.yamlMarshal (bootstrapPreseed env.canonicalNetworkAddress s) = .ok data ∧
      env.bufferWrite data = .ok () ∧ env.runPreseed data = .ok () ∧
      env.getCluster = .ok (c, etag) ∧ c.enabled = false ∧
      env.updateCluster (bootstrapClusterPut s) etag = .ok op ∧
      ((∃ e, env.opWait op = .error e ∧
         Bootstrap env s = (.error (.wrap "Failed to configure cluster :" e),
           [.localInit (bootstrapPreseed env.canonicalNetworkAddress s), .getCluster,
            .updateCluster (bootstrapClusterPut s) etag, .opWait op])) ∨
       (env.opWait op = .ok () ∧
         Bootstrap env s = (.ok (),
           [.localInit (bootstrapPreseed env.canonicalNetworkAddress s), .getCluster,
            .updateCluster (bootstrapClusterPut s) etag, .opWait op])))) := by
  cases h1 : env.yamlMarshal (bootstrapPreseed env.canonicalNetworkAddress s) with
  | error e => exact Or.inl ⟨e, by simp, by simp [Bootstrap, h1]⟩
  | ok data =>
    cases h2 : env.bufferWrite data with
    | error e =>
        exact Or.inr (Or.inl ⟨data, e, by simp, by simp [h2], by simp [Bootstrap, h1, h2]⟩)
    | ok u =>
      cases h3 : env.runPreseed data with
      | error e =>
          refine Or.inr (Or.inr (Or.inl ⟨data, e, by simp, ?_, by simp [h3],
            by simp [Bootstrap, h1, h2, h3]⟩))
          cases u; exact h2
      | ok v =>
        cases h4 : env.getCluster with
        | error e =>
            refine Or.inr (Or.inr (Or.inr (Or.inl ⟨data, e, by simp, ?_, ?_, by simp,
              by simp [Bootstrap, h1, h2, h3, h4]⟩)))
            · cases u; exact h2
            · cases v; exact h3
        | ok pr =>
          obtain ⟨c, etag⟩ := pr
          cases hc : c.enabled with
          | true =>
              refine Or.inr (Or.inr (Or.inr (Or.inr (Or.inl ⟨data, c, etag, by simp, ?_, ?_,
                by simp [h4], hc, by simp [Bootstrap, h1, h2, h3, h4, hc]⟩))))
              · cases u; exact h2
              · cases v; exact h3
          | false =>
            cases h6 : env.updateCluster (bootstrapClusterPut s) etag with
            | error e =>
                refine Or.inr (Or.inr (Or.inr (Or.inr (Or.inr (Or.inl
                  ⟨data, c, etag, e, by simp, ?_, ?_, by simp [h4], hc, h6,
                   by simp [Bootstrap, h1, h2, h3, h4, hc, h6]⟩)))))
                · cases u; exact h2
                · cases v; exact h3
            | ok op =>
              refine Or.inr (Or.inr (Or.inr (Or.inr (Or.inr (Or.inr
                ⟨data, c, etag, op, by simp, ?_, ?_, by simp [h4], hc, h6, ?_⟩)))))
              · cases u; exact h2
              · cases v; exact h3
              · cases h7 : env.opWait op with
                | error e =>
                    exact Or.inl ⟨e, rfl, by simp [Bootstrap, h1, h2, h3, h4, hc, h6, h7]⟩
                | ok w =>
                    refine Or.inr ⟨?_, by simp [Bootstrap, h1, h2, h3, h4, hc, h6, h7]⟩
                    cases w; rfl

/-- Helper: exhaustive enumeration of `IssueToken`'s possible results and
traces. -/
theorem IssueToken_cases (env : Env) (peer : String) :
    (∃ e, env.createClusterMember { serverName := peer } = .error e ∧
      IssueToken env peer = (.error e, [.createClusterMember { serverName := peer }])) ∨
    (∃ op, env.createClusterMember { serverName := peer } = .ok op ∧
      (IssueToken env peer).2 =
        [.createClusterMember { serverName := peer }, .opGet op,
         .toClusterJoinToken op.apiOp] ∧
      ((∃ e, env.toClusterJoinToken op.apiOp = .error e ∧
         (IssueToken env peer).1 =
           .error (.wrap "Failed converting token operation to join token: " e)) ∨
       (∃ jt, env.toClusterJoinToken op.apiOp = .ok jt ∧
         (IssueToken env peer).1 = .ok jt))) := by
  cases h1 : env.createClusterMember { serverName := peer } with
  | error e => exact Or.inl ⟨e, rfl, by simp [IssueToken, h1]⟩
  | ok op =>
    refine Or.inr ⟨op, rfl, ?_, ?_⟩
    · cases h2 : env.toClusterJoinToken op.apiOp with
      | error e => simp [IssueToken, h1, h2]
      | ok jt => simp [IssueToken, h1, h2]
    · cases h2 : env.toClusterJoinToken op.apiOp with
      | error e => exact Or.inl ⟨e, rfl, by simp [IssueToken, h1, h2]⟩
      | ok jt => exact Or.inr ⟨jt, rfl, by simp [IssueToken, h1, h2]⟩

/-- Helper: every error `Bootstrap` returns is either the distinct
unwrapped already-clustered error or a stage-wrapped error. -/
theorem Bootstrap_error_wrap_or_already (env : Env) (s : LXDService) (e : GoError)
    (h : (Bootstrap env s).1 = .error e) :
    e = alreadyClusteredErr ∨ e.isWrap = true := by
  rcases Bootstrap_cases env s with
      ⟨_, _, hB⟩ | ⟨_, _, _, _, hB⟩ | ⟨_, _, _, _, _, hB⟩ |
      ⟨_, _, _, _, _, _, hB⟩ | ⟨_, _, _, _, _, _, _, _, hB⟩ |
      ⟨_, _, _, _, _, _, _, _, _, _, hB⟩ |
      ⟨_, _, _, _, _, _, _, _, _, _, ⟨_, _, hB⟩ | ⟨_, hB⟩⟩ <;>
    rw [hB] at h <;> simp_all [GoError.isWrap, alreadyClusteredErr] <;> subst h <;>
    simp [GoError.isWrap]

/-- Helper: every error `Join` returns is either stage-wrapped or is the
unwrapped error of token decoding or certificate loading. -/
theorem Join_error_sources (env : Env) (s : LXDService) (token : String) (e : GoError)
    (h : (Join env s token).1 = .error e) :
    e.isWrap = true ∨ env.configFromToken token = .error e ∨
      env.loadServerCert s.dir = .error e := by
  rcases Join_cases env s token with
      ⟨e1, hc, hJ⟩ | ⟨cfg, e1, hc, hl, hJ⟩ | ⟨cfg, cert, e1, hc, hl, ht, hJ⟩ |
      ⟨cfg, cert, hc, hl, ht, ⟨e1, hu, hJ⟩ | ⟨op, hu, htr, ⟨e1, hw, hJ⟩ | hJ⟩⟩ <;>
    rw [hJ] at h <;> simp_all [GoError.isWrap] <;> subst h <;> simp [GoError.isWrap]

/-- Helper: every error `IssueToken` returns is either stage-wrapped or is
the unwrapped error of `CreateClusterMember`. -/
theorem IssueToken_error_sources (env : Env) (peer : String) (e : GoError)
    (h : (IssueToken env peer).1 = .error e) :
    e.isWrap = true ∨ env.createClusterMember { serverName := peer } = .error e := by
  rcases IssueToken_cases env peer with
      ⟨e1, hc, hI⟩ | ⟨op, hc, htr, ⟨e1, hj, hI⟩ | ⟨jt, hj, hI⟩⟩ <;>
    rw [hI] at h <;> simp_all [GoError.isWrap] <;> subst h <;> simp [GoError.isWrap]

/-- C2: If `Bootstrap` observes the fetched cluster state with
`enabled == true`, it fails with the distinct already-clustered error —
an unwrapped error distinct from every other (always stage-wrapped)
`Bootstrap` failure — and `UpdateCluster` is never called. -/
theorem bootstrap_already_clustered (env : Env) (s : LXDService) (data : String)
    (c : Cluster) (etag : String)
    (h1 : env.yamlMarshal (bootstrapPreseed env.canonicalNetworkAddress s) = .ok data)
    (h2 : env.bufferWrite data = .ok ())
    (h3 : env.runPreseed data = .ok ())
    (h4 : env.getCluster = .ok (c, etag))
    (h5 : c.enabled = true) :
    (Bootstrap env s).1 = .error alreadyClusteredErr ∧
    (∀ call ∈ (Bootstrap env s).2, call.isUpdateCluster = false) ∧
    alreadyClusteredErr.isWrap = false ∧
    (∀ env' s' e, (Bootstrap env' s').1 = .error e → e ≠ alreadyClusteredErr →
      e.isWrap = true) := by
  refine ⟨?_, ?_, rfl, ?_⟩
  · simp [Bootstrap, h1, h2, h3, h4, h5]
  · simp [Bootstrap, h1, h2, h3, h4, h5, Call.isUpdateCluster]
  · intro env' s' e he hne
    rcases Bootstrap_error_wrap_or_already env' s' e he with h | h
    · exact absurd h hne
    · exact h

/-- C2 witness: in `envAlready` the node reports `enabled == true` and
`Bootstrap` fails with the already-clustered error. -/
theorem bootstrap_already_clustered_witness :
    (Bootstrap envAlready svc1).1 = .error alreadyClusteredErr :=
  (bootstrap_already_clustered envAlready svc1 "yaml"
    { serverName := "", enabled := true } "etag1" rfl rfl rfl rfl rfl).1

/-- C8: when `CreateClusterMember` fails, `IssueToken` returns the
client's error value itself, not a replacement: the Conflict error is
surfaced as-is. -/
theorem issueToken_error_passthrough (env : Env) (peer : String) (e : GoError)
    (h : env.createClusterMember { serverName := peer } = .error e) :
    IssueToken env peer = (.error e, [.createClusterMember { serverName := peer }]) := by
  simp [IssueToken, h]

/-- C8 witness: an HTTP 409 Conflict from `CreateClusterMember` is
returned by `IssueToken` unchanged. -/
theorem issueToken_error_passthrough_witness :
    IssueToken envConflict "node2" =
      (.error (.status 409 "cluster member already exists"),
       [.createClusterMember { serverName := "node2" }]) :=
  issueToken_error_passthrough envConflict "node2"
    (.status 409 "cluster member already exists") rfl

/-- C9: `Bootstrap` performs local initialization (`lxd init --preseed`)
strictly before fetching the cluster state; on an already-clustered node
it still attempts local initialization before failing. -/
theorem bootstrap_init_before_state_check (env : Env) (s : LXDService) :
    (Call.getCluster ∈ (Bootstrap env s).2 →
      ∃ rest, (Bootstrap env s).2 =
        Call.localInit (bootstrapPreseed env.canonicalNetworkAddress s) ::
          Call.getCluster :: rest) ∧
    (∀ data c etag,
      env.yamlMarshal (bootstrapPreseed env.canonicalNetworkAddress s) = .ok data →
      env.bufferWrite data = .ok () → env.runPreseed data = .ok () →
      env.getCluster = .ok (c, etag) → c.enabled = true →
      Bootstrap env s = (.error alreadyClusteredErr,
        [.localInit (bootstrapPreseed env.canonicalNetworkAddress s), .getCluster])) := by
  constructor
  · intro hmem
    rcases Bootstrap_cases env s with
        ⟨_, _, hB⟩ | ⟨_, _, _, _, hB⟩ | ⟨_, _, _, _, _, hB⟩ |
        ⟨_, _, _, _, _, _, hB⟩ | ⟨_, _, _, _, _, _, _, _, hB⟩ |
        ⟨_, _, _, _, _, _, _, _, _, _, hB⟩ |
        ⟨_, _, _, _, _, _, _, _, _, _, ⟨_, _, hB⟩ | ⟨_, hB⟩⟩ <;>
      rw [hB] at hmem ⊢ <;> simp_all
  · intro data c etag h1 h2 h3 h4 h5
    have : Bootstrap env s = (.error alreadyClusteredErr,
        [.localInit (bootstrapPreseed env.canonicalNetworkAddress s), .getCluster]) := by
      simp [Bootstrap, h1, h2, h3, h4, h5]
    exact this

/-- C9 witness: on the already-clustered environment, `Bootstrap`'s
trace starts with the local initialization call. -/
theorem bootstrap_init_before_state_check_witness :
    Bootstrap envAlready svc1 = (.error alreadyClusteredErr,
      [.localInit (bootstrapPreseed envAlready.canonicalNetworkAddress svc1),
       .getCluster]) :=
  (bootstrap_init_before_state_check envAlready svc1).2 "yaml"
    { serverName := "", enabled := true } "etag1" rfl rfl rfl rfl rfl

/-- C10: a service built by `NewLXDService` has `Port()` equal to the
fixed `LXDPort` (the constructor takes no port argument), and `Name()` and
`Address()` equal to the constructor's arguments. `Bootstrap`, `Join` and
`IssueToken` take the receiver by value and return only a result and a
call trace, so these fields are unchanged by them by construction. -/
theorem service_descriptor_accessors (connect : Except GoError Unit)
    (name addr dir : String) (s : LXDService)
    (h : NewLXDService connect name addr dir = .ok s) :
    s.Port = LXDPort ∧ s.Name = name ∧ s.Address = addr := by
  cases connect with
  | error e => simp [NewLXDService] at h
  | ok u =>
      cases u
      injection h with h
      subst h
      exact ⟨rfl, rfl, rfl⟩

/-- C10 witness: the concrete service constructed from `svc1`'s fields. -/
theorem service_descriptor_accessors_witness :
    svc1.Port = LXDPort ∧ svc1.Name = "node1" ∧ svc1.Address = "10.0.0.5" :=
  service_descriptor_accessors (.ok ()) "node1" "10.0.0.5"
    "/var/snap/lxd/common/lxd" svc1 rfl

/-- C5: on the not-already-clustered path, `Bootstrap` calls
`UpdateCluster` with exactly `{ServerName := the name given at
construction, Enabled := true}` (other fields zero-valued) and the etag
from the immediately preceding `GetCluster` read, and then awaits the
returned operation. -/
theorem bootstrap_update_config_and_etag (connect : Except GoError Unit)
    (name addr dir : String) (s : LXDService) (env : Env) (data etag : String)
    (c : Cluster) (op : Operation)
    (h0 : NewLXDService connect name addr dir = .ok s)
    (h1 : env.yamlMarshal (bootstrapPreseed env.canonicalNetworkAddress s) = .ok data)
    (h2 : env.bufferWrite data = .ok ())
    (h3 : env.runPreseed data = .ok ())
    (h4 : env.getCluster = .ok (c, etag))
    (h5 : c.enabled = false)
    (h6 : env.updateCluster (bootstrapClusterPut s) etag = .ok op) :
    bootstrapClusterPut s =
      { serverName := name, enabled := true, clusterAddress := "", clusterCertificate := "" } ∧
    (Bootstrap env s).2 =
      [.localInit (bootstrapPreseed env.canonicalNetworkAddress s), .getCluster,
       .updateCluster
         { serverName := name, enabled := true, clusterAddress := "", clusterCertificate := "" }
         etag,
       .opWait op] := by
  have hs : s.name = name := by
    cases connect with
    | error e => simp [NewLXDService] at h0
    | ok u => cases u; injection h0 with h0; subst h0; rfl
  have hput : bootstrapClusterPut s =
      { serverName := name, enabled := true, clusterAddress := "", clusterCertificate := "" } := by
    simp [bootstrapClusterPut, hs]
  refine ⟨hput, ?_⟩
  rw [← hput]
  cases h7 : env.opWait op with
  | error e => simp [Bootstrap, h1, h2, h3, h4, h5, h6, h7]
  | ok v => simp [Bootstrap, h1, h2, h3, h4, h5, h6, h7]

/-- C5 witness: the success path on `envOk`, for the service built with
name `node1`. -/
theorem bootstrap_update_config_and_etag_witness :
    (Bootstrap envOk svc1).2 =
      [.localInit (bootstrapPreseed envOk.canonicalNetworkAddress svc1), .getCluster,
       .updateCluster
         { serverName := "node1", enabled := true, clusterAddress := "", clusterCertificate := "" }
         "etag1",
       .opWait opA] :=
  (bootstrap_update_config_and_etag (.ok ()) "node1" "10.0.0.5"
    "/var/snap/lxd/common/lxd" svc1 envOk "yaml" "etag1"
    { serverName := "", enabled := false } opA rfl rfl rfl rfl rfl rfl rfl).2

/-- C6: when the preseed is successfully marshalled and written,
`Bootstrap` invokes local initialization with a preseed whose
`core.https_address` is the canonical form of the node's address and
port, with exactly one storage pool, and exactly one profile, named
`default`, whose devices contain a `root` disk device with path `/`. -/
theorem bootstrap_preseed_contents (env : Env) (s : LXDService) (data : String)
    (h1 : env.yamlMarshal (bootstrapPreseed env.canonicalNetworkAddress s) = .ok data)
    (h2 : env.bufferWrite data = .ok ()) :
    Call.localInit (bootstrapPreseed env.canonicalNetworkAddress s) ∈ (Bootstrap env s).2 ∧
    (bootstrapPreseed env.canonicalNetworkAddress s).node.serverPut.config.lookup
        "core.https_address" = some (env.canonicalNetworkAddress s.address s.port) ∧
    (bootstrapPreseed env.canonicalNetworkAddress s).node.storagePools.length = 1 ∧
    (bootstrapPreseed env.canonicalNetworkAddress s).node.profiles.length = 1 ∧
    ∀ pr ∈ (bootstrapPreseed env.canonicalNetworkAddress s).node.profiles,
      pr.name = "default" ∧
      ∃ dev, pr.devices.lookup "root" = some dev ∧
        dev.lookup "path" = some "/" ∧ dev.lookup "type" = some "disk" := by
  refine ⟨?_, by simp [bootstrapPreseed], by simp [bootstrapPreseed],
    by simp [bootstrapPreseed], by simp [bootstrapPreseed, List.lookup]⟩
  rcases Bootstrap_cases env s with
      ⟨e1, hy, hB⟩ | ⟨d, e1, hy, hw, hB⟩ | ⟨_, _, _, _, _, hB⟩ |
      ⟨_, _, _, _, _, _, hB⟩ | ⟨_, _, _, _, _, _, _, _, hB⟩ |
      ⟨_, _, _, _, _, _, _, _, _, _, hB⟩ |
      ⟨_, _, _, _, _, _, _, _, _, _, ⟨_, _, hB⟩ | ⟨_, hB⟩⟩ <;>
    rw [hB] <;> simp_all

/-- C6 witness: on `envOk` the local init call is in the trace. -/
theorem bootstrap_preseed_contents_witness :
    Call.localInit (bootstrapPreseed envOk.canonicalNetworkAddress svc1)
      ∈ (Bootstrap envOk svc1).2 :=
  (bootstrap_preseed_contents envOk svc1 "yaml" rfl rfl).1

/-- C7: every `UpdateCluster` call made by `Join` passes the empty
version string (no optimistic-concurrency precondition), whereas every
`UpdateCluster` call made by `Bootstrap` passes the etag obtained from
its prior `GetCluster` read. -/
theorem join_no_version_precondition (env : Env) (s : LXDService) (token : String) :
    (∀ cfg v, Call.updateCluster cfg v ∈ (Join env s token).2 → v = "") ∧
    (∀ cfg v, Call.updateCluster cfg v ∈ (Bootstrap env s).2 →
      ∃ c, env.getCluster = .ok (c, v)) := by
  constructor
  · intro cfg v hmem
    rcases Join_cases env s token with
        ⟨e1, hc, hJ⟩ | ⟨cfg1, e1, hc, hl, hJ⟩ | ⟨cfg1, cert, e1, hc, hl, ht, hJ⟩ |
        ⟨cfg1, cert, hc, hl, ht, ⟨e1, hu, hJ⟩ | ⟨op, hu, hJ, hres⟩⟩
    · rw [hJ] at hmem; simp at hmem
    · rw [hJ] at hmem; simp at hmem
    · rw [hJ] at hmem; simp at hmem
    · rw [hJ] at hmem; simp at hmem; exact hmem.2
    · rw [hJ] at hmem; simp at hmem; exact hmem.2
  · intro cfg v hmem
    rcases Bootstrap_cases env s with
        ⟨_, _, hB⟩ | ⟨_, _, _, _, hB⟩ | ⟨_, _, _, _, _, hB⟩ |
        ⟨_, _, _, _, _, _, hB⟩ | ⟨_, _, _, _, _, _, _, _, hB⟩ |
        ⟨d, c, etag, e1, hy, hw, hr, hg, hc, hu, hB⟩ |
        ⟨d, c, etag, op, hy, hw, hr, hg, hc, hu, ⟨e1, hw7, hB⟩ | ⟨hw7, hB⟩⟩ <;>
      rw [hB] at hmem <;> simp at hmem
    · exact ⟨c, by rw [hg, hmem.2]⟩
    · exact ⟨c, by rw [hg, hmem.2]⟩
    · exact ⟨c, by rw [hg, hmem.2]⟩

/-- C7 witness: `Join` on `envOk` updates with the empty version, and
`Bootstrap` on `envOk` updates with the etag read from `GetCluster`. -/
theorem join_no_version_precondition_witness :
    ("" : String) = "" ∧ ∃ c, envOk.getCluster = .ok (c, "etag1") :=
  ⟨(join_no_version_precondition envOk svc1 "tok").1 cfgTok "" (by decide),
   (join_no_version_precondition envOk svc1 "tok").2 (bootstrapClusterPut svc1) "etag1"
     (by decide)⟩

/-- C1: in `Join`, trust negotiation (loading the local server
certificate, then `SetupTrust` against the token's cluster address with
the token as bearer secret) happens strictly before the
membership-mutating `UpdateCluster` call; if token decoding, certificate
loading, or `SetupTrust` fails, `Join` returns an error and
`UpdateCluster` is never invoked. -/
theorem join_trust_precedes_membership (env : Env) (s : LXDService) (token : String) :
    (∀ e, env.configFromToken token = .error e →
      (Join env s token).1 = .error e ∧
        ∀ call ∈ (Join env s token).2, call.isUpdateCluster = false) ∧
    (∀ cfg e, env.configFromToken token = .ok cfg → env.loadServerCert s.dir = .error e →
      (Join env s token).1 = .error e ∧
        ∀ call ∈ (Join env s token).2, call.isUpdateCluster = false) ∧
    (∀ cfg cert e, env.configFromToken token = .ok cfg →
      env.loadServerCert s.dir = .ok cert →
      env.setupTrust cert cfg.serverName cfg.clusterAddress cfg.clusterCertificate token
        = .error e →
      (Join env s token).1 =
        .error (.wrap "Failed to setup trust relationship with cluster: " e) ∧
        ∀ call ∈ (Join env s token).2, call.isUpdateCluster = false) ∧
    (∀ cfg v, Call.updateCluster cfg v ∈ (Join env s token).2 →
      ∃ cert rest, env.loadServerCert s.dir = .ok cert ∧
        env.setupTrust cert cfg.serverName cfg.clusterAddress cfg.clusterCertificate token
          = .ok () ∧
        (Join env s token).2 =
          [.configFromToken token, .loadServerCert s.dir,
           .setupTrust cert cfg.serverName cfg.clusterAddress cfg.clusterCertificate token,
           .updateCluster cfg v] ++ rest) := by
  refine ⟨?_, ?_, ?_, ?_⟩
  · intro e h
    exact ⟨by simp [Join, h], by simp [Join, h, Call.isUpdateCluster]⟩
  · intro cfg e hc hl
    exact ⟨by simp [Join, hc, hl], by simp [Join, hc, hl, Call.isUpdateCluster]⟩
  · intro cfg cert e hc hl ht
    exact ⟨by simp [Join, hc, hl, ht], by simp [Join, hc, hl, ht, Call.isUpdateCluster]⟩
  · intro cfg v hmem
    rcases Join_cases env s token with
        ⟨e1, hc, hJ⟩ | ⟨cfg1, e1, hc, hl, hJ⟩ | ⟨cfg1, cert, e1, hc, hl, ht, hJ⟩ |
        ⟨cfg1, cert, hc, hl, ht, ⟨e1, hu, hJ⟩ | ⟨op, hu, hJ, hres⟩⟩
    · rw [hJ] at hmem; simp at hmem
    · rw [hJ] at hmem; simp at hmem
    · rw [hJ] at hmem; simp at hmem
    · rw [hJ] at hmem
      simp at hmem
      obtain ⟨hcfg, hv⟩ := hmem
      subst hcfg; subst hv
      exact ⟨cert, [], hl, ht, by simp [hJ]⟩
    · rw [hJ] at hmem
      simp at hmem
      obtain ⟨hcfg, hv⟩ := hmem
      subst hcfg; subst hv
      exact ⟨cert, [.opWait op], hl, ht, by simp [hJ]⟩

/-- C1 witness: with `SetupTrust` failing on `envTrustFail`, `Join`
returns the stage-wrapped trust error and performs no `UpdateCluster`
call. -/
theorem join_trust_precedes_membership_witness :
    (Join envTrustFail svc1 "tok").1 =
      .error (.wrap "Failed to setup trust relationship with cluster: "
        (.msg "trust rejected")) ∧
    ∀ call ∈ (Join envTrustFail svc1 "tok").2, call.isUpdateCluster = false :=
  (join_trust_precedes_membership envTrustFail svc1 "tok").2.2.1 cfgTok "LOCALCERT"
    (.msg "trust rejected") rfl rfl rfl

/-- C3 counterexample: on an environment where everything succeeds,
`IssueToken` completes successfully while its trace contains no
`op.Wait()` call — the operation is never awaited, contradicting the
claim that `IssueToken` awaits the operation before converting its
payload. -/
theorem issueToken_await_counterexample :
    (IssueToken envOk "node2").1 = .ok "tok" ∧
    (IssueToken envOk "node2").2.all (fun call => !call.isOpWait) = true :=
  ⟨rfl, rfl⟩

/-- C3 amended: `IssueToken` calls `CreateClusterMember` with the given
peer server name and then, without awaiting the operation, reads the
operation's current payload via `op.Get()` and converts it into a
`JoinToken` string. -/
theorem issueToken_get_without_wait (env : Env) (peer : String) :
    (∀ call ∈ (IssueToken env peer).2, call.isOpWait = false) ∧
    (∀ op, env.createClusterMember { serverName := peer } = .ok op →
      (IssueToken env peer).2 =
        [.createClusterMember { serverName := peer }, .opGet op,
         .toClusterJoinToken op.apiOp] ∧
      ∀ jt, env.toClusterJoinToken op.apiOp = .ok jt →
        (IssueToken env peer).1 = .ok jt) := by
  constructor
  · intro call hmem
    rcases IssueToken_cases env peer with
        ⟨e1, hc, hI⟩ | ⟨op, hc, htr, _⟩
    · rw [hI] at hmem; simp at hmem; simp [hmem, Call.isOpWait]
    · rw [htr] at hmem
      simp at hmem
      rcases hmem with h | h | h <;> simp [h, Call.isOpWait]
  · intro op hop
    constructor
    · cases h2 : env.toClusterJoinToken op.apiOp with
      | error e => simp [IssueToken, hop, h2]
      | ok jt => simp [IssueToken, hop, h2]
    · intro jt hjt
      simp [IssueToken, hop, hjt]

/-- C3 amended witness: on `envOk` the trace is exactly create, get,
convert, and the result is the converted token. -/
theorem issueToken_get_without_wait_witness :
    (IssueToken envOk "node2").2 =
      [.createClusterMember { serverName := "node2" }, .opGet opA,
       .toClusterJoinToken opA.apiOp] ∧
    (IssueToken envOk "node2").1 = .ok "tok" :=
  ⟨((issueToken_get_without_wait envOk "node2").2 opA rfl).1,
   ((issueToken_get_without_wait envOk "node2").2 opA rfl).2 "tok" rfl⟩

/-- C4 counterexample: a `CreateClusterMember` failure is returned by
`IssueToken` unwrapped, and a certificate-loading failure is returned by
`Join` unwrapped — neither carries a protocol-stage wrapper, contradicting
the claim that these errors are stage-wrapped. -/
theorem stage_wrap_counterexample :
    (IssueToken envConflict "node2").1 =
      .error (.status 409 "cluster member already exists") ∧
    GoError.isWrap (.status 409 "cluster member already exists") = false ∧
    (Join envCertFail svc1 "tok").1 = .error (.msg "permission denied") ∧
    GoError.isWrap (.msg "permission denied") = false :=
  ⟨rfl, rfl, rfl, rfl⟩

/-- C4 amended: `Bootstrap` stage-wraps every failure except the distinct
already-clustered error, and `Join` stage-wraps `SetupTrust`,
`UpdateCluster` and `Wait` failures; but token-decoding and
certificate-loading errors in `Join`, and `CreateClusterMember` errors in
`IssueToken`, are returned to the caller unchanged, without a stage
wrapper. -/
theorem error_stage_wrapping (env : Env) (s : LXDService) (token peer : String) :
    (∀ cfg cert e, env.configFromToken token = .ok cfg →
      env.loadServerCert s.dir = .ok cert →
      env.setupTrust cert cfg.serverName cfg.clusterAddress cfg.clusterCertificate token
        = .error e →
      (Join env s token).1 =
        .error (.wrap "Failed to setup trust relationship with cluster: " e)) ∧
    (∀ e, env.configFromToken token = .error e → (Join env s token).1 = .error e) ∧
    (∀ cfg e, env.configFromToken token = .ok cfg → env.loadServerCert s.dir = .error e →
      (Join env s token).1 = .error e) ∧
    (∀ e, env.createClusterMember { serverName := peer } = .error e →
      (IssueToken env peer).1 = .error e) ∧
    (∀ e, (Bootstrap env s).1 = .error e → e = alreadyClusteredErr ∨ e.isWrap = true) ∧
    (∀ e, (Join env s token).1 = .error e → e.isWrap = true ∨
      env.configFromToken token = .error e ∨ env.loadServerCert s.dir = .error e) ∧
    (∀ e, (IssueToken env peer).1 = .error e → e.isWrap = true ∨
      env.createClusterMember { serverName := peer } = .error e) := by
  refine ⟨?_, ?_, ?_, ?_, ?_, ?_, ?_⟩
  · intro cfg cert e hc hl ht; simp [Join, hc, hl, ht]
  · intro e h; simp [Join, h]
  · intro cfg e hc hl; simp [Join, hc, hl]
  · intro e h; simp [IssueToken, h]
  · intro e h; exact Bootstrap_error_wrap_or_already env s e h
  · intro e h; exact Join_error_sources env s token e h
  · intro e h; exact IssueToken_error_sources env peer e h

/-- C4 amended witness: the trust-stage failure is wrapped; the
certificate-loading failure is returned unchanged. -/
theorem error_stage_wrapping_witness :
    (Join envTrustFail svc1 "tok2").1 =
      .error (.wrap "Failed to setup trust relationship with cluster: "
        (.msg "trust rejected")) ∧
    (Join envCertFail svc1 "tok2").1 = .error (.msg "permission denied") :=
  ⟨(error_stage_wrapping envTrustFail svc1 "tok2" "node3").1 cfgTok "LOCALCERT"
     (.msg "trust rejected") rfl rfl rfl,
   (error_stage_wrapping envCertFail svc1 "tok2" "node3").2.2.1 cfgTok
     (.msg "permission denied") rfl rfl⟩

end Service
